import Mathlib

/-
Verification development for the SSS-CMS memoranda application
(src/memoranda_app_uat.py).

The application stores memoranda, settings and an audit trail in one
SQLite database and users, units and password-reset tokens in a second
one.  We give a shallow embedding: tables become Lean lists of records,
SQL conditions become Bool-valued predicates on a record, the clock,
random token/salt generation and I/O failures become explicit
parameters, and Python exceptions become Option/Except values or an
explicit failure flag.

SQL modelling notes, applying to every query below:
  - `ORDER BY` clauses are not modelled; every claim below is about the
    returned row set (and the generator only takes a maximum, which is
    order independent), never about row order.
  - `LIKE` carries SQLite's default semantics, which is ASCII
    case-insensitive (the application issues only `PRAGMA foreign_keys`
    and never sets `case_sensitive_like` or a custom like function):
    `LIKE 'lit%'` becomes prefix match and `LIKE '%lit%'` substring
    containment after ASCII case-folding both sides, the literal being
    taken verbatim (no wildcard characters inside it).
  - `=` comparisons and the UNIQUE constraint use the BINARY collation
    and stay case-sensitive.
-/

/-- Strict lexicographic (bytewise, SQLite binary collation) order on
character lists. -/
def chars_lt : List Char → List Char → Bool
  | [], [] => false
  | [], _ :: _ => true
  | _ :: _, [] => false
  | a :: as, b :: bs =>
    if a.toNat < b.toNat then true
    else if b.toNat < a.toNat then false
    else chars_lt as bs

/-- Embedding of the SQL TEXT comparison `a < b` (binary collation;
ISO-8601 timestamps therefore compare chronologically). -/
def str_lt (a b : String) : Bool := chars_lt a.data b.data

/-- Embedding of the SQL TEXT comparison `a <= b`. -/
def str_le (a b : String) : Bool := str_lt a b || a == b

/-- Substring search on character lists: true when needle occurs
contiguously in hay (the empty needle occurs everywhere). -/
def char_list_has_sub (needle : List Char) : List Char → Bool
  | [] => needle.isEmpty
  | c :: rest => needle.isPrefixOf (c :: rest) || char_list_has_sub needle rest

/-- Split a character list at every occurrence of the dash character,
as Python `"...".split("-")` does (always at least one group). -/
def split_on_dash : List Char → List (List Char)
  | [] => [[]]
  | c :: rest =>
    let r := split_on_dash rest
    if c == '-' then [] :: r
    else
      match r with
      | [] => [[c]]
      | g :: gs => (c :: g) :: gs

/-- Embedding of Python `s.strip()`: drop leading and trailing
whitespace characters. -/
def str_strip (s : String) : String :=
  ⟨((s.data.dropWhile Char.isWhitespace).reverse.dropWhile
      Char.isWhitespace).reverse⟩

/-- ASCII lower-casing of one character, as SQLite `LOWER()` does. -/
def ascii_lower (c : Char) : Char :=
  if 65 ≤ c.toNat && c.toNat ≤ 90 then Char.ofNat (c.toNat + 32) else c

/-- Embedding of SQLite `LOWER(s)` (ASCII-only lower-casing). -/
def str_lower (s : String) : String := ⟨s.data.map ascii_lower⟩

/-- Embedding of the SQL condition `s LIKE 'pat%'` under SQLite's
default LIKE semantics: pat is a literal prefix of s up to ASCII
case. -/
def like_pre (pat s : String) : Bool :=
  (pat.data.map ascii_lower).isPrefixOf (s.data.map ascii_lower)

/-- Embedding of the SQL condition `hay LIKE '%needle%'` under
SQLite's default LIKE semantics: needle occurs in hay up to ASCII
case (used by the unit filters and the free-text search). -/
def like_sub (hay needle : String) : Bool :=
  char_list_has_sub (needle.data.map ascii_lower) (hay.data.map ascii_lower)

/-- Raw (case-sensitive) substring containment: the spec's notion of
"contains ... as a raw substring", kept for comparison against the
case-insensitive LIKE the program actually executes. -/
def strContains (hay needle : String) : Bool :=
  char_list_has_sub needle.data hay.data

/-- Zero-pad a natural number to width 2, as Python strftime "%y" does. -/
def pad2 (n : Nat) : String :=
  if n < 10 then "0" ++ toString n else toString n

/-- Embedding of `yymm` (src line 494): the two-digit year of the given
clock reading.  The wall clock is passed in as the full year. -/
def yymm (year : Nat) : String := pad2 (year % 100)

/-- Python format spec `03d` for the values produced by the generator
(always >= 1 there): left-pad the decimal representation to width 3. -/
def pad3 (n : Int) : String :=
  if n < 10 then "00" ++ toString n
  else if n < 100 then "0" ++ toString n
  else toString n

/-- Decimal value of a list of digit characters. -/
def digits_to_nat (ds : List Char) : Nat :=
  ds.foldl (fun a c => a * 10 + (c.toNat - 48)) 0

/-- Parse a nonempty all-digit character list, else fail. -/
def py_digits? (ds : List Char) : Option Nat :=
  if ds.isEmpty then none
  else if ds.all Char.isDigit then some (digits_to_nat ds) else none

/-- Embedding of Python `int(s)` on an already-stripped string: an
optional sign followed by ASCII digits (digit-group underscores and
non-ASCII digits are not modelled; no call site produces them). -/
def py_int? (s : String) : Option Int :=
  match s.data with
  | '+' :: ds => (py_digits? ds).map Int.ofNat
  | '-' :: ds => (py_digits? ds).map (fun n => -(n : Int))
  | ds => (py_digits? ds).map Int.ofNat

/-- A row of the `memos` table (src lines 170-188).  `date_log` and
`date_doc` are nullable (`Option`); the remaining TEXT columns are
always written as strings by the application. -/
structure Memo where
  id : Nat
  control_no : String
  date_log : Option String
  date_doc : Option String
  memo_from : String
  thru : String
  memo_for : String
  subject : String
  category : String
  status : String
  notes : String
  created_at : String
  updated_at : String
  deriving DecidableEq

/-- Embedding of `parse_control_sequence` (src lines 497-502): take the
last "-"-separated segment, strip it, parse it as an int; any failure
yields none. -/
def parse_control_sequence (control_no : String) : Option Int :=
  py_int? (str_strip ⟨(split_on_dash control_no.data).getLastD []⟩)

/-- Embedding of `next_control_no` (src lines 504-515).  The wall clock
is the `year` parameter and the `memos` table is passed in; the SQL
`SELECT control_no FROM memos WHERE control_no LIKE 'pfx yy-%'` becomes
a filterMap, and the loop keeps the largest truthy parsed sequence. -/
def next_control_no (pfx : String) (year : Nat) (memos : List Memo) : String :=
  let yy := yymm year
  let pat := pfx ++ " " ++ yy ++ "-"
  let rows := memos.filterMap (fun m =>
    if like_pre pat m.control_no then some m.control_no else none)
  let last_seq := rows.foldl (fun acc cn =>
    match parse_control_sequence cn with
    | some s => if s != 0 && decide (acc < s) then s else acc
    | none => acc) 0
  pfx ++ " " ++ yy ++ "-" ++ pad3 (last_seq + 1)

/-- Spec-side definition (refinement target) for C1: the sequence
numbers parsed from existing control numbers matching the pattern
"pfx YY-*" (ASCII case-insensitively, as the program's LIKE scan
matches); rows whose final segment does not parse are dropped. -/
def spec_matching_seqs (pfx : String) (year : Nat) (memos : List Memo) : List Int :=
  memos.filterMap (fun m =>
    if like_pre (pfx ++ " " ++ yymm year ++ "-") m.control_no
    then parse_control_sequence m.control_no else none)

/-- Spec-side maximum of the matching sequence numbers, 0 when there is
none (the spec formula `max(...) + 1` with `max` of nothing read as 0,
matching the stated "no matching row exists -> 001" case). -/
def spec_max_seq (pfx : String) (year : Nat) (memos : List Memo) : Int :=
  (spec_matching_seqs pfx year memos).foldr max 0

/-- Embedding of `get_setting` (src lines 291-295) at the call pattern
used here (a non-null string default): first row of the settings
association list wins, else the default. -/
def get_setting (settings : List (String × String)) (key dflt : String) : String :=
  match settings.lookup key with
  | some v => v
  | none => dflt

/-- Embedding of `get_unit_prefix` (src lines 450-465): blank unit name
falls straight to the global default; otherwise an exact (case
sensitive) lookup in `control_prefixes`, falling back to the settings
key "control_prefix" with default "MEMO". -/
def get_unit_pfx (ctrl_prefixes settings : List (String × String)) (unit_name : String) : String :=
  if unit_name = "" then get_setting settings "control_prefix" "MEMO"
  else
    match ctrl_prefixes.lookup unit_name with
    | some p => p
    | none => get_setting settings "control_prefix" "MEMO"

/-- Embedding of the New Memorandum prefix selection (src lines
1456-1470): the first selected unit's prefix if any unit is selected,
else the first assigned unit's prefix, else the global default. -/
def select_unit_pfx (ctrl_prefixes settings : List (String × String))
    (sel_units current_units : List String) : String :=
  match sel_units with
  | u :: _ => get_unit_pfx ctrl_prefixes settings u
  | [] =>
    match current_units with
    | u :: _ => get_unit_pfx ctrl_prefixes settings u
    | [] => get_setting settings "control_prefix" "MEMO"

/-- Embedding of the New Memorandum INSERT and its IntegrityError
handler (src lines 1517-1543) restricted to the `memos` table: the
UNIQUE constraint on `control_no` (src line 174) rejects a duplicate,
the exception is caught, the table is left unchanged and the error
message is shown; otherwise the row is appended.  The result is the new
table together with the error message, if any. -/
def save_new_memo (memos : List Memo) (m : Memo) : List Memo × Option String :=
  if memos.any (fun x => x.control_no == m.control_no) then
    (memos, some "Control No. already exists. Please use another.")
  else
    (memos ++ [m], none)

/-- Embedding of `clear_memo_contents` (src lines 920-935): the SQL
UPDATE nulls the two dates, blanks the five text fields and refreshes
`updated_at` on every row whose id matches. -/
def clear_memo_contents (now : String) (memo_id : Nat) (memos : List Memo) : List Memo :=
  memos.map (fun m =>
    if m.id == memo_id then
      { m with date_log := none, date_doc := none,
               memo_from := "", thru := "", memo_for := "",
               subject := "", notes := "", updated_at := now }
    else m)

/-- The signed-in user's data relevant to the row-level filters. -/
structure UserCtx where
  role : String
  units : List String
  deriving DecidableEq

/-- The user-chosen filter widgets shared by Dashboard and
Monitor/Manage: date range, free-text search, category and status
multiselects. -/
structure Filters where
  start_s : String
  end_s : String
  q : String
  cats : List String
  stats : List String
  deriving DecidableEq

/-- Embedding of the unit restriction appended to both listing queries
(src lines 1347-1358 and 1577-1586, textually identical): signed-in
non-admin users get an OR of `memo_for LIKE '%unit%'` over their units
(ASCII case-insensitive, SQLite's LIKE default), or the false condition
`1=0` when they have no unit; admins and absent users get no
restriction. -/
def unit_restriction (user : Option UserCtx) (m : Memo) : Bool :=
  match user with
  | none => true
  | some u =>
    if u.role == "admin" then true
    else if u.units.isEmpty then false
    else u.units.any (fun un => like_sub m.memo_for un)

/-- Embedding of the Dashboard base WHERE clause (src lines 1336-1346):
date_log within range (NULL dates compare as unknown, excluding the
row), then the optional search/category/status conditions. -/
def dash_base_cond (f : Filters) (m : Memo) : Bool :=
  (match m.date_log with
   | none => false
   | some d => str_le f.start_s d && str_le d f.end_s)
  && (if f.q == "" then true
      else like_sub m.subject f.q || like_sub m.memo_from f.q
        || like_sub m.memo_for f.q || like_sub m.notes f.q)
  && (if f.cats.isEmpty then true else f.cats.contains m.category)
  && (if f.stats.isEmpty then true else f.stats.contains m.status)

/-- The Dashboard listing query (src lines 1336-1360): the rows of the
memos table satisfying the base conditions and the unit restriction. -/
def dashboard_rows (f : Filters) (user : Option UserCtx) (memos : List Memo) : List Memo :=
  memos.filter (fun m => dash_base_cond f m && unit_restriction user m)

/-- Embedding of the Monitor/Manage base WHERE clause (src lines
1565-1576), built the same way as the Dashboard one. -/
def monitor_base_cond (f : Filters) (m : Memo) : Bool :=
  (match m.date_log with
   | none => false
   | some d => str_le f.start_s d && str_le d f.end_s)
  && (if f.q == "" then true
      else like_sub m.subject f.q || like_sub m.memo_from f.q
        || like_sub m.memo_for f.q || like_sub m.notes f.q)
  && (if f.cats.isEmpty then true else f.cats.contains m.category)
  && (if f.stats.isEmpty then true else f.stats.contains m.status)

/-- The Monitor/Manage listing query (src lines 1565-1588). -/
def monitor_rows (f : Filters) (user : Option UserCtx) (memos : List Memo) : List Memo :=
  memos.filter (fun m => monitor_base_cond f m && unit_restriction user m)

/-- A sample memo addressed to "Fiscal" in mixed case, passing the
sample filters below; it contains no raw substring "IS" yet SQLite's
case-insensitive LIKE matches it for the "IS" user. -/
def memo_fiscal_mixed : Memo :=
  { id := 3, control_no := "MEMO 25-005",
    date_log := some "2025-06-02", date_doc := some "2025-06-02",
    memo_from := "Chief Accountant", thru := "", memo_for := "Fiscal",
    subject := "Quarterly report", category := "", status := "",
    notes := "", created_at := "2025-06-02T08:00:00",
    updated_at := "2025-06-02T08:00:00" }

/-- A sample memo addressed to the FISCAL unit, passing the sample
filters below; used to exhibit the substring-collision behaviour. -/
def memo_fiscal : Memo :=
  { id := 1, control_no := "MEMO 25-001",
    date_log := some "2025-06-01", date_doc := some "2025-06-01",
    memo_from := "Chief Accountant", thru := "", memo_for := "FISCAL",
    subject := "Budget realignment", category := "", status := "",
    notes := "", created_at := "2025-06-01T08:00:00",
    updated_at := "2025-06-01T08:00:00" }

/-- A sample non-admin user whose only unit is named "IS". -/
def user_is : UserCtx := { role := "user", units := ["IS"] }

/-- Sample filters wide enough to pass every base condition for
`memo_fiscal`. -/
def filters_any : Filters :=
  { start_s := "2025-01-01", end_s := "2025-12-31", q := "", cats := [], stats := [] }

/-- A second sample memo with a different id and control number, used
to exhibit the frame property of clearing. -/
def memo_two : Memo :=
  { memo_fiscal with id := 2, control_no := "MEMO 25-002", memo_for := "ICTD" }

/-- A sample memo whose manually entered control number uses the
prefix in lower case; the LIKE scan still counts it. -/
def memo_lowercase : Memo :=
  { memo_fiscal with id := 4, control_no := "memo 25-009" }

/-- A row of the `audit_trail` table (src lines 252-262). -/
structure AuditRow where
  ts : String
  user_id : Option Nat
  action : String
  memo_id : Option Nat
  details : String
  deriving DecidableEq

/-- The body of `log_action`'s try block: the INSERT into audit_trail,
which the environment may make raise (connection failure, locked
database, ...); the raised exception is the error value. -/
def audit_insert (fail : Option String) (trail : List AuditRow) (r : AuditRow) :
    Except String (List AuditRow) :=
  match fail with
  | some e => Except.error e
  | none => Except.ok (trail ++ [r])

/-- Embedding of `log_action` (src lines 657-669): run the insert
attempt and swallow any exception, returning the table unchanged in
that case.  The function is total: it never propagates the failure. -/
def log_action (fail : Option String) (now : String) (session_uid : Option Nat)
    (trail : List AuditRow) (action : String) (memo_id : Option Nat)
    (details : String) : List AuditRow :=
  match audit_insert fail trail
      { ts := now, user_id := session_uid, action := action,
        memo_id := memo_id, details := details } with
  | Except.ok t => t
  | Except.error _ => trail

/-- A row of the user database's `users` table (src lines 54-63). -/
structure UserRec where
  id : Nat
  username : String
  email : String
  password_hash : String
  password_salt : String
  role : String
  is_active : Bool
  deriving DecidableEq

/-- A row of `password_reset_tokens` (src lines 96-103). -/
structure ResetToken where
  user_id : Nat
  token : String
  expires_at : String
  created_at : String
  deriving DecidableEq

/-- The user database: users and their pending reset tokens. -/
structure UserDB where
  users : List UserRec
  tokens : List ResetToken
  deriving DecidableEq

/-- Embedding of `purge_expired_reset_tokens` (src lines 708-725):
delete every token whose expires_at is before the current time
(ISO-8601 strings compare chronologically). -/
def purge_expired_reset_tokens (now : String) (db : UserDB) : UserDB :=
  { db with tokens := db.tokens.filter (fun t => !(str_lt t.expires_at now)) }

/-- Embedding of `create_password_reset_token` (src lines 778-811).
The generated token, the two timestamps and the SMTP outcome are
environment inputs.  Email lookup is case-insensitive; on a hit the
expired tokens are purged, the new token row is inserted, and the
overall success is the email-send outcome (note the row stays inserted
even when sending fails, exactly as in the source). -/
def create_password_reset_token (db : UserDB) (now email : String)
    (gen_tok expires created : String) (send_ok : Bool) : Bool × UserDB :=
  if email == "" then (false, db)
  else
    match db.users.find? (fun u =>
        str_lower u.email == str_lower (str_strip email)) with
    | none => (false, db)
    | some u =>
      let db2 := purge_expired_reset_tokens now db
      (send_ok,
        { db2 with tokens := db2.tokens ++
            [{ user_id := u.id, token := gen_tok, expires_at := expires,
               created_at := created }] })

/-- Embedding of `validate_password_reset_token` (src lines 814-837):
blank inputs fail fast; otherwise expired tokens are purged and the
join of tokens with users on a case-insensitive email match, an exact
token match and a future expiry is taken, the newest (largest
created_at) matching row winning.  Returns the found user id (if any)
together with the database after the purge side effect. -/
def validate_password_reset_token (db : UserDB) (now email token : String) :
    Option Nat × UserDB :=
  if email == "" || token == "" then (none, db)
  else
    let db2 := purge_expired_reset_tokens now db
    let ms := db2.tokens.filter (fun t =>
      db2.users.any (fun u =>
        u.id == t.user_id && str_lower u.email == str_lower (str_strip email))
      && t.token == str_strip token
      && str_lt now t.expires_at)
    let best := ms.foldl (fun acc t =>
      match acc with
      | none => some t
      | some b => if str_lt b.created_at t.created_at then some t else acc) none
    (best.map (fun t => t.user_id), db2)

/-- Embedding of `update_user_password` (src lines 840-882) on the user
database: an empty password is rejected; otherwise the fresh salt and
hash (randomness passed in) replace the user's credentials and every
reset token of that user is deleted.  The mirror write into the memo
database's audit copy of users (whose failure the source swallows) is
outside this model of the user database. -/
def update_user_password (db : UserDB) (user_id : Nat) (new_password salt hash : String) :
    Bool × UserDB :=
  if new_password == "" then (false, db)
  else
    (true,
      { users := db.users.map (fun u =>
          if u.id == user_id then
            { u with password_hash := hash, password_salt := salt }
          else u),
        tokens := db.tokens.filter (fun t => !(t.user_id == user_id)) })

/-- The three stages of the Reset Password wizard (src lines 1240-1313). -/
inductive ResetStage where
  | email
  | token
  | password
  deriving DecidableEq

/-- The wizard's session state: `reset_stage`, `reset_email` and
`reset_user_id` (src lines 1243-1246). -/
structure ResetWizardState where
  stage : ResetStage
  reset_email : String
  reset_user_id : Option Nat
  deriving DecidableEq

/-- Initial wizard state on first load (src lines 1243-1246). -/
def reset_wizard_init : ResetWizardState :=
  { stage := ResetStage.email, reset_email := "", reset_user_id := none }

/-- A form submission event of the wizard, carrying the entered text. -/
inductive ResetEvent where
  | submitEmail (email_input : String)
  | submitToken (token_input : String)
  | submitPassword (new_pw new_pw2 : String)

/-- Environment inputs consumed by one wizard step: the clock, the
generated token and its timestamps, the SMTP outcome, and the fresh
salt/hash a password update would store. -/
structure ResetEnv where
  now : String
  gen_token : String
  expires_at : String
  created_at : String
  send_ok : Bool
  new_salt : String
  new_hash : String

/-- Embedding of the Reset Password tab handler (src lines 1240-1313)
as a step function on (wizard state, user database).  Each stage
renders only its own form, so an event for another stage leaves
everything unchanged; validation failures keep the stage (the database
still keeps any side effect the called helper performed, as in the
source, where a failed send still inserted the token and a failed
validation still purged expired tokens). -/
def reset_wizard_step (env : ResetEnv) (db : UserDB) (s : ResetWizardState)
    (e : ResetEvent) : ResetWizardState × UserDB :=
  match s.stage, e with
  | ResetStage.email, ResetEvent.submitEmail em =>
    if em == "" then (s, db)
    else
      let r := create_password_reset_token db env.now (str_strip em) env.gen_token
        env.expires_at env.created_at env.send_ok
      if r.1 then
        ({ stage := ResetStage.token, reset_email := str_strip em,
           reset_user_id := s.reset_user_id }, r.2)
      else (s, r.2)
  | ResetStage.token, ResetEvent.submitToken tok =>
    if tok == "" then (s, db)
    else
      let r := validate_password_reset_token db env.now s.reset_email (str_strip tok)
      match r.1 with
      | some uid =>
        ({ stage := ResetStage.password, reset_email := s.reset_email,
           reset_user_id := some uid }, r.2)
      | none => (s, r.2)
  | ResetStage.password, ResetEvent.submitPassword pw1 pw2 =>
    if pw1 == "" then (s, db)
    else if !(pw1 == pw2) then (s, db)
    else
      match s.reset_user_id with
      | none => (s, db)
      | some uid =>
        let r := update_user_password db uid pw1 env.new_salt env.new_hash
        if r.1 then
          ({ stage := ResetStage.email, reset_email := "",
             reset_user_id := none }, r.2)
        else (s, r.2)
  | _, _ => (s, db)

/-- A sample user record for concrete reset-flow runs. -/
def user_alice : UserRec :=
  { id := 1, username := "alice", email := "alice@example.com",
    password_hash := "h0", password_salt := "s0", role := "user",
    is_active := true }

/-- A sample unexpired reset token for `user_alice`. -/
def token_alice : ResetToken :=
  { user_id := 1, token := "123456", expires_at := "2030-01-01T00:00:00",
    created_at := "2025-01-01T00:00:00" }

/-- A sample user database holding `user_alice` and her token. -/
def user_db0 : UserDB := { users := [user_alice], tokens := [token_alice] }

/-- A sample environment for one wizard step: a clock reading, a fresh
token valid for 30 minutes, a successful email send, and fresh
credential material. -/
def env0 : ResetEnv :=
  { now := "2025-06-01T00:00:00", gen_token := "654321",
    expires_at := "2025-06-01T00:30:00", created_at := "2025-06-01T00:00:00",
    send_ok := true, new_salt := "s1", new_hash := "h1" }

/-- Helper: for a non-admin user none of whose units occurs (up to
ASCII case) in the memo's memo_for field, the unit restriction
evaluates to false. -/
theorem unit_restriction_false_of (u : UserCtx) (m : Memo)
    (hrole : u.role ≠ "admin")
    (h : u.units.any (fun un => like_sub m.memo_for un) = false) :
    unit_restriction (some u) m = false := by
  by_cases he : u.units.isEmpty
  · simp [unit_restriction, hrole, he]
  · simp [unit_restriction, hrole, he, h]

/-- Helper: for an admin the unit restriction is vacuous. -/
theorem unit_restriction_admin (u : UserCtx) (m : Memo)
    (hrole : u.role = "admin") :
    unit_restriction (some u) m = true := by
  simp [unit_restriction, hrole]

/-- C7: log_action either appends the audit row or swallows the raised
exception, leaving the trail unchanged; being a total function of the
failure environment it never propagates the failure to its caller. -/
theorem log_action_total_swallow (fail : Option String) (now : String)
    (uid : Option Nat) (trail : List AuditRow) (a : String)
    (mid : Option Nat) (d : String) :
    log_action fail now uid trail a mid d =
      trail ++ [{ ts := now, user_id := uid, action := a,
                  memo_id := mid, details := d }]
    ∨ log_action fail now uid trail a mid d = trail := by
  cases fail <;> simp [log_action, audit_insert]

/-- C8: a signed-in non-admin user with no assigned unit gets an empty
result set from both listing queries, whatever the table and the other
filters hold (the appended condition 1=0 is unsatisfiable). -/
theorem empty_units_empty_results (f : Filters) (u : UserCtx)
    (memos : List Memo) (hrole : u.role ≠ "admin") (hunits : u.units = []) :
    dashboard_rows f (some u) memos = []
    ∧ monitor_rows f (some u) memos = [] := by
  have hu : ∀ m : Memo, unit_restriction (some u) m = false := by
    intro m
    exact unit_restriction_false_of u m hrole (by simp [hunits])
  constructor <;> simp [dashboard_rows, monitor_rows, hu]

/-- C8 witness: a concrete non-admin user with an empty unit list sees
nothing even though a memo within the date range exists. -/
theorem empty_units_empty_results_witness :
    dashboard_rows filters_any (some { role := "user", units := [] })
      [memo_fiscal] = [] := by
  exact (empty_units_empty_results filters_any
    { role := "user", units := [] } [memo_fiscal] (by decide) rfl).1

/-- C4: next_control_no reserves nothing (it is a pure function of the
table in this embedding), so uniqueness is enforced only at insert
time: saving a memo whose control number equals an existing row's
control_no trips the UNIQUE constraint, the table is unchanged and the
error is reported for retry; otherwise the row is appended. -/
theorem duplicate_control_no_insert_rejected (memos : List Memo) (m : Memo) :
    ((∃ x ∈ memos, x.control_no = m.control_no) →
      save_new_memo memos m =
        (memos, some "Control No. already exists. Please use another."))
    ∧ ((∀ x ∈ memos, x.control_no ≠ m.control_no) →
      save_new_memo memos m = (memos ++ [m], none)) := by
  constructor
  · rintro ⟨x, hx, he⟩
    have hany : memos.any (fun x => x.control_no == m.control_no) = true := by
      apply List.any_eq_true.mpr
      exact ⟨x, hx, by simp [he]⟩
    simp [save_new_memo, hany]
  · intro h
    have hany : memos.any (fun x => x.control_no == m.control_no) = false := by
      rw [Bool.eq_false_iff]
      intro hc
      rcases List.any_eq_true.mp hc with ⟨x, hx, hbe⟩
      exact h x hx (by simpa using hbe)
    simp [save_new_memo, hany]

/-- C4 witness: re-inserting a memo with an already-used control number
fails with the duplicate error and leaves the table as it was. -/
theorem duplicate_control_no_insert_rejected_witness :
    save_new_memo [memo_fiscal] memo_fiscal =
      ([memo_fiscal], some "Control No. already exists. Please use another.") := by
  exact (duplicate_control_no_insert_rejected [memo_fiscal] memo_fiscal).1
    ⟨memo_fiscal, by simp, rfl⟩

/-- C5: the control-number prefix is resolved per unit: the first
selected unit's prefix is used; an exact (case-sensitive) entry in
control_prefixes wins, otherwise the settings key control_prefix is
used with default "MEMO", including for a blank unit name. -/
theorem unit_ctrl_pfx_resolution (ctrl_prefixes settings : List (String × String)) :
    (∀ (u : String) (rest cu : List String),
      select_unit_pfx ctrl_prefixes settings (u :: rest) cu =
        get_unit_pfx ctrl_prefixes settings u)
    ∧ (∀ (name p : String), name ≠ "" → ctrl_prefixes.lookup name = some p →
      get_unit_pfx ctrl_prefixes settings name = p)
    ∧ (∀ name : String, ctrl_prefixes.lookup name = none →
      get_unit_pfx ctrl_prefixes settings name =
        get_setting settings "control_prefix" "MEMO")
    ∧ (get_unit_pfx ctrl_prefixes settings "" =
        get_setting settings "control_prefix" "MEMO")
    ∧ (settings.lookup "control_prefix" = none →
      get_setting settings "control_prefix" "MEMO" = "MEMO") := by
  refine ⟨?_, ?_, ?_, ?_, ?_⟩
  · intro u rest cu
    rfl
  · intro name p hname hlk
    simp [get_unit_pfx, hname, hlk]
  · intro name hlk
    by_cases hname : name = ""
    · simp [get_unit_pfx, hname]
    · simp [get_unit_pfx, hname, hlk]
  · simp [get_unit_pfx]
  · intro h
    simp [get_setting, h]

/-- C5 witness: with a single configured prefix for FISCAL and no
settings row, the FISCAL unit resolves to its configured prefix, a unit
without a row falls back to the default "MEMO", and the first selected
unit drives the choice. -/
theorem unit_ctrl_pfx_resolution_witness :
    get_unit_pfx [("FISCAL", "FIS")] [] "FISCAL" = "FIS"
    ∧ get_unit_pfx [("FISCAL", "FIS")] [] "IS" = "MEMO"
    ∧ select_unit_pfx [("FISCAL", "FIS")] [] ["FISCAL", "IS"] [] = "FIS" := by
  have h := unit_ctrl_pfx_resolution [("FISCAL", "FIS")] []
  have h1 : get_unit_pfx [("FISCAL", "FIS")] [] "FISCAL" = "FIS" :=
    h.2.1 "FISCAL" "FIS" (by decide) (by rfl)
  have h2 : get_unit_pfx [("FISCAL", "FIS")] [] "IS" = "MEMO" :=
    (h.2.2.1 "IS" (by rfl)).trans (h.2.2.2.2 (by rfl))
  have h3 : select_unit_pfx [("FISCAL", "FIS")] [] ["FISCAL", "IS"] [] = "FIS" :=
    (h.1 "FISCAL" ["IS"] []).trans h1
  exact ⟨h1, h2, h3⟩

/-- C9: clearing a memo nulls its two dates, blanks the five text
fields and refreshes updated_at on exactly the row with the given id,
inheriting every remaining field (id, control_no, category, status,
created_at) unchanged; the row count is preserved and every other row
is untouched. -/
theorem clear_memo_contents_frame (now : String) (mid : Nat) (memos : List Memo) :
    (clear_memo_contents now mid memos).length = memos.length
    ∧ ∀ (i : Nat) (h1 : i < memos.length)
        (h2 : i < (clear_memo_contents now mid memos).length),
        (memos[i].id = mid →
          (clear_memo_contents now mid memos)[i] =
            { memos[i] with
              date_log := none, date_doc := none,
              memo_from := "", thru := "", memo_for := "",
              subject := "", notes := "", updated_at := now })
        ∧ (memos[i].id ≠ mid →
          (clear_memo_contents now mid memos)[i] = memos[i]) := by
  constructor
  · simp [clear_memo_contents]
  · intro i h1 h2
    constructor
    · intro hid
      simp [clear_memo_contents, hid]
    · intro hid
      simp [clear_memo_contents, hid]

/-- C9 witness: clearing memo id 1 in a two-row table keeps both rows,
wipes only the first and leaves the second untouched. -/
theorem clear_memo_contents_frame_witness :
    (clear_memo_contents "2025-07-01T00:00:00" 1 [memo_fiscal, memo_two]).length = 2
    ∧ (clear_memo_contents "2025-07-01T00:00:00" 1 [memo_fiscal, memo_two]).get
        ⟨1, by simp [clear_memo_contents]⟩ = memo_two
    ∧ (clear_memo_contents "2025-07-01T00:00:00" 1 [memo_fiscal, memo_two]).get
        ⟨0, by simp [clear_memo_contents]⟩ =
          { memo_fiscal with
            date_log := none, date_doc := none,
            memo_from := "", thru := "", memo_for := "",
            subject := "", notes := "", updated_at := "2025-07-01T00:00:00" } := by
  have h := clear_memo_contents_frame "2025-07-01T00:00:00" 1 [memo_fiscal, memo_two]
  refine ⟨by simpa using h.1, ?_, ?_⟩
  · have := (h.2 1 (by decide) (by simp [clear_memo_contents])).2 (by decide)
    simpa [List.get_eq_getElem] using this
  · have := (h.2 0 (by decide) (by simp [clear_memo_contents])).1 (by decide)
    simpa [List.get_eq_getElem] using this

/-- C2 counterexample: the claim's "returned iff memo_for contains
some unit name as a raw substring" is false of the program.  The memo
addressed to "Fiscal" is returned to the user whose only unit is "IS"
by the Dashboard query (SQLite LIKE is ASCII case-insensitive), yet
"IS" is not a raw substring of "Fiscal": the only-if direction fails at
this input. -/
theorem unit_filter_substring_match_cex :
    memo_fiscal_mixed ∈ dashboard_rows filters_any (some user_is)
      [memo_fiscal_mixed]
    ∧ (user_is.units.any (fun un =>
        strContains memo_fiscal_mixed.memo_for un)) = false := by
  constructor
  · decide
  · decide

/-- C2 (amended): for a signed-in non-admin user with at least one
unit, both listing queries return a memo exactly when it passes the
base filters and its memo_for contains some unit name of the user as a
substring up to ASCII case (SQLite's default LIKE semantics), with no
other normalization or word-boundary check; the witness below
instantiates the substring collision (user unit "IS" against memo unit
"FISCAL"). -/
theorem unit_filter_substring_match (f : Filters) (u : UserCtx)
    (memos : List Memo) (m : Memo)
    (hrole : u.role ≠ "admin") (hunits : u.units ≠ []) :
    (m ∈ dashboard_rows f (some u) memos ↔
      m ∈ memos ∧ dash_base_cond f m = true
        ∧ u.units.any (fun un => like_sub m.memo_for un) = true)
    ∧ (m ∈ monitor_rows f (some u) memos ↔
      m ∈ memos ∧ monitor_base_cond f m = true
        ∧ u.units.any (fun un => like_sub m.memo_for un) = true) := by
  have hb : (u.role == "admin") = false := by simp [hrole]
  have he : u.units.isEmpty = false := by
    simpa [List.isEmpty_iff] using hunits
  constructor <;>
    simp [dashboard_rows, monitor_rows, List.mem_filter, unit_restriction,
      hb, he, and_assoc]

/-- C2 witness: the user whose single unit is "IS" receives the memo
addressed to "FISCAL", because "IS" occurs inside "FISCAL". -/
theorem unit_filter_substring_match_witness :
    memo_fiscal ∈ dashboard_rows filters_any (some user_is) [memo_fiscal]
    ∧ memo_fiscal ∈ monitor_rows filters_any (some user_is) [memo_fiscal] := by
  have h := unit_filter_substring_match filters_any user_is [memo_fiscal]
    memo_fiscal (by decide) (by decide)
  exact ⟨h.1.mpr ⟨by simp, by decide, by decide⟩,
         h.2.mpr ⟨by simp, by decide, by decide⟩⟩

/-- C3: row-level isolation of the unit filter.  For a non-admin user,
appending a memo matching none of their units (matching being the
query's own LIKE condition, ASCII case-insensitive substring), or
replacing such a memo by another such memo, leaves both query results
unchanged; for an admin the unit restriction is not applied at all and
the result is exactly the base-filtered table. -/
theorem unit_filter_row_level_isolation (f : Filters) (u : UserCtx) :
    (u.role ≠ "admin" →
      (∀ (ms : List Memo) (m : Memo),
        u.units.any (fun un => like_sub m.memo_for un) = false →
        dashboard_rows f (some u) (ms ++ [m]) = dashboard_rows f (some u) ms
        ∧ monitor_rows f (some u) (ms ++ [m]) = monitor_rows f (some u) ms)
      ∧ (∀ (ms1 ms2 : List Memo) (m m' : Memo),
        u.units.any (fun un => like_sub m.memo_for un) = false →
        u.units.any (fun un => like_sub m'.memo_for un) = false →
        dashboard_rows f (some u) (ms1 ++ m :: ms2) =
          dashboard_rows f (some u) (ms1 ++ m' :: ms2)
        ∧ monitor_rows f (some u) (ms1 ++ m :: ms2) =
          monitor_rows f (some u) (ms1 ++ m' :: ms2)))
    ∧ (u.role = "admin" →
      ∀ ms : List Memo,
        dashboard_rows f (some u) ms = ms.filter (fun m => dash_base_cond f m)
        ∧ monitor_rows f (some u) ms = ms.filter (fun m => monitor_base_cond f m)) := by
  constructor
  · intro hrole
    constructor
    · intro ms m hm
      have hu := unit_restriction_false_of u m hrole hm
      constructor <;>
        simp [dashboard_rows, monitor_rows, List.filter_append, hu]
    · intro ms1 ms2 m m' hm hm'
      have hu := unit_restriction_false_of u m hrole hm
      have hu' := unit_restriction_false_of u m' hrole hm'
      constructor <;>
        simp [dashboard_rows, monitor_rows, List.filter_append, hu, hu']
  · intro hrole ms
    have hu : ∀ m : Memo, unit_restriction (some u) m = true := fun m =>
      unit_restriction_admin u m hrole
    constructor <;> simp [dashboard_rows, monitor_rows, hu]

/-- C3 witness: for the non-admin "IS" user, adding a memo addressed
only to "ICTD" does not change the Dashboard result, while an admin
with the same units sees the full base-filtered table. -/
theorem unit_filter_row_level_isolation_witness :
    dashboard_rows filters_any (some user_is) [memo_fiscal, memo_two] =
      dashboard_rows filters_any (some user_is) [memo_fiscal]
    ∧ dashboard_rows filters_any (some { role := "admin", units := ["IS"] })
        [memo_fiscal, memo_two] = [memo_fiscal, memo_two] := by
  constructor
  · exact ((unit_filter_row_level_isolation filters_any user_is).1
      (by decide)).1 [memo_fiscal] memo_two (by decide) |>.1
  · have h := ((unit_filter_row_level_isolation filters_any
      { role := "admin", units := ["IS"] }).2 rfl [memo_fiscal, memo_two]).1
    exact h.trans (by decide)

/-- Helper: folding the truthy-guarded update over the parsed values of
a string list equals folding it over the successfully parsed values. -/
theorem foldl_parse_filterMap (l : List String) (acc : Int) :
    l.foldl (fun a cn =>
      match parse_control_sequence cn with
      | some s => if s != 0 && decide (a < s) then s else a
      | none => a) acc
    = (l.filterMap parse_control_sequence).foldl
        (fun a s => if s != 0 && decide (a < s) then s else a) acc := by
  induction l generalizing acc with
  | nil => rfl
  | cons cn t ih =>
    cases h : parse_control_sequence cn with
    | none =>
      simp only [List.foldl_cons, List.filterMap_cons, h]
      exact ih acc
    | some s =>
      simp only [List.foldl_cons, List.filterMap_cons, h]
      exact ih _

/-- Helper: a foldr of max over integers with seed 0 is nonnegative. -/
theorem foldr_max_nonneg (l : List Int) : 0 ≤ l.foldr max 0 := by
  induction l with
  | nil => simp
  | cons s t ih =>
    simp only [List.foldr_cons]
    exact le_trans ih (le_max_right s _)

/-- Helper: the source loop, which replaces the accumulator only by a
truthy strictly larger value, computes the maximum of the list capped
below by the (nonnegative) initial accumulator. -/
theorem guarded_foldl_eq_max (l : List Int) : ∀ acc : Int, 0 ≤ acc →
    l.foldl (fun a s => if s != 0 && decide (a < s) then s else a) acc
    = max acc (l.foldr max 0) := by
  induction l with
  | nil =>
    intro acc h
    simp [max_eq_left h]
  | cons s t ih =>
    intro acc h
    simp only [List.foldl_cons, List.foldr_cons]
    by_cases hc : (s != 0 && decide (acc < s)) = true
    · rw [if_pos hc]
      have hlt : acc < s := of_decide_eq_true ((Bool.and_eq_true _ _).mp hc).2
      have hs0 : 0 ≤ s := le_of_lt (lt_of_le_of_lt h hlt)
      rw [ih s hs0]
      have hacc : acc ≤ max s (t.foldr max 0) :=
        le_trans (le_of_lt hlt) (le_max_left _ _)
      rw [max_eq_right hacc]
    · rw [if_neg hc]
      rw [ih acc h]
      have hs : s ≤ max acc (t.foldr max 0) := by
        by_cases h0 : s = 0
        · rw [h0]
          exact le_trans h (le_max_left _ _)
        · have hns : ¬ acc < s := by
            intro hlt
            exact hc (by simp [h0, hlt])
          exact le_trans (le_of_not_lt hns) (le_max_left _ _)
      rw [max_left_comm acc s (t.foldr max 0), max_eq_right hs]

/-- Helper: the rows selected by the LIKE filter, parsed, are exactly
the spec-side matching sequence numbers. -/
theorem matching_rows_parse (pfx : String) (year : Nat) (memos : List Memo) :
    (memos.filterMap (fun m =>
      if like_pre (pfx ++ " " ++ yymm year ++ "-") m.control_no
      then some m.control_no else none)).filterMap parse_control_sequence
    = spec_matching_seqs pfx year memos := by
  rw [List.filterMap_filterMap]
  unfold spec_matching_seqs
  congr 1
  funext m
  by_cases hp : like_pre (pfx ++ " " ++ yymm year ++ "-") m.control_no <;>
    simp [hp]

/-- C1: next_control_no returns the prefix, a space, the two-digit
year, a dash and the zero-padded successor of the maximum sequence
number parsed from the control numbers matching "pfx YY-*" (the match
being the scan's LIKE, hence ASCII case-insensitive; unparsable final
segments ignored); with no matching row the suffix is 001. -/
theorem next_control_no_matches_spec (pfx : String) (year : Nat) (memos : List Memo) :
    next_control_no pfx year memos =
      pfx ++ " " ++ yymm year ++ "-" ++ pad3 (spec_max_seq pfx year memos + 1)
    ∧ (spec_matching_seqs pfx year memos = [] →
      next_control_no pfx year memos = pfx ++ " " ++ yymm year ++ "-" ++ "001") := by
  have hmain : next_control_no pfx year memos =
      pfx ++ " " ++ yymm year ++ "-" ++ pad3 (spec_max_seq pfx year memos + 1) := by
    simp only [next_control_no]
    rw [foldl_parse_filterMap, matching_rows_parse,
      guarded_foldl_eq_max _ 0 le_rfl, max_eq_right (foldr_max_nonneg _)]
    rfl
  refine ⟨hmain, fun h => hmain.trans ?_⟩
  have h0 : spec_max_seq pfx year memos = 0 := by
    unfold spec_max_seq
    rw [h]
    rfl
  rw [h0]
  rfl

/-- C1 witness: an empty table yields suffix 001; a table holding
sequences 001 and 002 for the same prefix and year yields 003; and a
row whose control number carries the prefix in lower case is still
counted by the scan (LIKE's ASCII case-insensitivity), yielding 010
after sequence 009. -/
theorem next_control_no_matches_spec_witness :
    next_control_no "MEMO" 2025 [] = "MEMO 25-001"
    ∧ next_control_no "MEMO" 2025 [memo_fiscal, memo_two] = "MEMO 25-003"
    ∧ next_control_no "MEMO" 2025 [memo_lowercase] = "MEMO 25-010" := by
  refine ⟨?_, ?_, ?_⟩
  · exact ((next_control_no_matches_spec "MEMO" 2025 []).2 rfl).trans (by decide)
  · exact (next_control_no_matches_spec "MEMO" 2025 [memo_fiscal, memo_two]).1.trans
      (by decide)
  · exact (next_control_no_matches_spec "MEMO" 2025 [memo_lowercase]).1.trans
      (by decide)

/-- Helper: purging expired tokens never touches the users table. -/
theorem purge_users_eq (now : String) (db : UserDB) :
    (purge_expired_reset_tokens now db).users = db.users := rfl

/-- Helper: creating a reset token never touches the users table. -/
theorem create_users_eq (db : UserDB) (now em tok exp cr : String) (ok : Bool) :
    (create_password_reset_token db now em tok exp cr ok).2.users = db.users := by
  unfold create_password_reset_token
  split
  · rfl
  · split <;> rfl

/-- Helper: validating a reset token never touches the users table. -/
theorem validate_users_eq (db : UserDB) (now em tok : String) :
    (validate_password_reset_token db now em tok).2.users = db.users := by
  unfold validate_password_reset_token
  split <;> rfl

/-- C6: the Reset Password wizard is a linear 3-stage machine: a step
moves the stage only along email -> token -> password -> email (no
skip); reaching 'token' requires a successful
create_password_reset_token for the entered email, reaching 'password'
requires validate_password_reset_token to return a user id (which is
then stored), and the users table (hence any password) changes only on
a step taken in the 'password' stage, through update_user_password with
the stored validated user id. -/
theorem reset_wizard_linear_stages (env : ResetEnv) (db : UserDB)
    (s : ResetWizardState) (e : ResetEvent) :
    ((reset_wizard_step env db s e).1.stage = s.stage
      ∨ (s.stage = ResetStage.email ∧
          (reset_wizard_step env db s e).1.stage = ResetStage.token)
      ∨ (s.stage = ResetStage.token ∧
          (reset_wizard_step env db s e).1.stage = ResetStage.password)
      ∨ (s.stage = ResetStage.password ∧
          (reset_wizard_step env db s e).1.stage = ResetStage.email))
    ∧ (s.stage = ResetStage.email →
        (reset_wizard_step env db s e).1.stage = ResetStage.token →
        ∃ em, e = ResetEvent.submitEmail em ∧ (em == "") = false
          ∧ (create_password_reset_token db env.now (str_strip em) env.gen_token
              env.expires_at env.created_at env.send_ok).1 = true
          ∧ (reset_wizard_step env db s e).1.reset_email = str_strip em)
    ∧ (s.stage = ResetStage.token →
        (reset_wizard_step env db s e).1.stage = ResetStage.password →
        ∃ tok uid, e = ResetEvent.submitToken tok ∧ (tok == "") = false
          ∧ (validate_password_reset_token db env.now s.reset_email
              (str_strip tok)).1 = some uid
          ∧ (reset_wizard_step env db s e).1.reset_user_id = some uid)
    ∧ (s.stage ≠ ResetStage.password →
        (reset_wizard_step env db s e).2.users = db.users)
    ∧ (s.stage = ResetStage.password →
        (reset_wizard_step env db s e).2.users = db.users
        ∨ ∃ uid pw1 pw2, e = ResetEvent.submitPassword pw1 pw2
            ∧ s.reset_user_id = some uid ∧ (pw1 == "") = false ∧ pw1 = pw2
            ∧ (reset_wizard_step env db s e).2 =
                (update_user_password db uid pw1 env.new_salt env.new_hash).2) := by
  obtain ⟨st, rem, ruid⟩ := s
  refine ⟨?_, ?_, ?_, ?_, ?_⟩
  · cases st with
    | email =>
      cases e with
      | submitEmail em =>
        by_cases h1 : (em == "") = true
        · simp [reset_wizard_step, h1]
        · by_cases h2 : (create_password_reset_token db env.now (str_strip em)
              env.gen_token env.expires_at env.created_at env.send_ok).1 = true
          · simp [reset_wizard_step, h1, h2]
          · simp [reset_wizard_step, h1, h2]
      | submitToken tok => simp [reset_wizard_step]
      | submitPassword pw1 pw2 => simp [reset_wizard_step]
    | token =>
      cases e with
      | submitEmail em => simp [reset_wizard_step]
      | submitToken tok =>
        by_cases h1 : (tok == "") = true
        · simp [reset_wizard_step, h1]
        · cases hv : (validate_password_reset_token db env.now rem
              (str_strip tok)).1 with
          | none => simp [reset_wizard_step, h1, hv]
          | some uid => simp [reset_wizard_step, h1, hv]
      | submitPassword pw1 pw2 => simp [reset_wizard_step]
    | password =>
      cases e with
      | submitEmail em => simp [reset_wizard_step]
      | submitToken tok => simp [reset_wizard_step]
      | submitPassword pw1 pw2 =>
        by_cases h1 : (pw1 == "") = true
        · simp [reset_wizard_step, h1]
        · by_cases h2 : (pw1 == pw2) = true
          · cases hru : ruid with
            | none => simp [reset_wizard_step, h1, h2, hru]
            | some uid =>
              by_cases hu : (update_user_password db uid pw1 env.new_salt
                  env.new_hash).1 = true
              · simp [reset_wizard_step, h1, h2, hru, hu]
              · simp [reset_wizard_step, h1, h2, hru, hu]
          · simp [reset_wizard_step, h1, h2]
  · cases st with
    | email =>
      cases e with
      | submitEmail em =>
        intro _ h2
        by_cases h1 : (em == "") = true
        · simp [reset_wizard_step, h1] at h2
        · by_cases hc : (create_password_reset_token db env.now (str_strip em)
              env.gen_token env.expires_at env.created_at env.send_ok).1 = true
          · refine ⟨em, rfl, by simpa using h1, hc, ?_⟩
            simp [reset_wizard_step, h1, hc]
          · simp [reset_wizard_step, h1, hc] at h2
      | submitToken tok => intro _ h2; simp [reset_wizard_step] at h2
      | submitPassword pw1 pw2 => intro _ h2; simp [reset_wizard_step] at h2
    | token => intro h; simp at h
    | password => intro h; simp at h
  · cases st with
    | email => intro h; simp at h
    | token =>
      cases e with
      | submitEmail em => intro _ h2; simp [reset_wizard_step] at h2
      | submitToken tok =>
        intro _ h2
        by_cases h1 : (tok == "") = true
        · simp [reset_wizard_step, h1] at h2
        · cases hv : (validate_password_reset_token db env.now rem
              (str_strip tok)).1 with
          | none => simp [reset_wizard_step, h1, hv] at h2
          | some uid =>
            refine ⟨tok, uid, rfl, by simpa using h1, hv, ?_⟩
            simp [reset_wizard_step, h1, hv]
      | submitPassword pw1 pw2 => intro _ h2; simp [reset_wizard_step] at h2
    | password => intro h; simp at h
  · cases st with
    | email =>
      intro _
      cases e with
      | submitEmail em =>
        by_cases h1 : (em == "") = true
        · simp [reset_wizard_step, h1]
        · by_cases hc : (create_password_reset_token db env.now (str_strip em)
              env.gen_token env.expires_at env.created_at env.send_ok).1 = true
          · simp [reset_wizard_step, h1, hc, create_users_eq]
          · simp [reset_wizard_step, h1, hc, create_users_eq]
      | submitToken tok => simp [reset_wizard_step]
      | submitPassword pw1 pw2 => simp [reset_wizard_step]
    | token =>
      intro _
      cases e with
      | submitEmail em => simp [reset_wizard_step]
      | submitToken tok =>
        by_cases h1 : (tok == "") = true
        · simp [reset_wizard_step, h1]
        · cases hv : (validate_password_reset_token db env.now rem
              (str_strip tok)).1 with
          | none => simp [reset_wizard_step, h1, hv, validate_users_eq]
          | some uid => simp [reset_wizard_step, h1, hv, validate_users_eq]
      | submitPassword pw1 pw2 => simp [reset_wizard_step]
    | password => intro h; exact absurd rfl h
  · cases st with
    | email => intro h; simp at h
    | token => intro h; simp at h
    | password =>
      intro _
      cases e with
      | submitEmail em => left; simp [reset_wizard_step]
      | submitToken tok => left; simp [reset_wizard_step]
      | submitPassword pw1 pw2 =>
        by_cases h1 : (pw1 == "") = true
        · left; simp [reset_wizard_step, h1]
        · by_cases h2 : (pw1 == pw2) = true
          · cases hru : ruid with
            | none => left; simp [reset_wizard_step, h1, h2, hru]
            | some uid =>
              right
              refine ⟨uid, pw1, pw2, rfl, rfl, by simpa using h1,
                by simpa using h2, ?_⟩
              by_cases hu : (update_user_password db uid pw1 env.new_salt
                  env.new_hash).1 = true
              · simp [reset_wizard_step, h1, h2, hru, hu]
              · simp [reset_wizard_step, h1, h2, hru, hu]
          · left; simp [reset_wizard_step, h1, h2]

/-- C6 witness: from the initial state, submitting a registered email
with a successful send moves the wizard to the token stage, and the
theorem recovers the successful create call and the stored email. -/
theorem reset_wizard_linear_stages_witness :
    ∃ em, ResetEvent.submitEmail "alice@example.com" = ResetEvent.submitEmail em
      ∧ (em == "") = false
      ∧ (create_password_reset_token user_db0 env0.now (str_strip em)
          env0.gen_token env0.expires_at env0.created_at env0.send_ok).1 = true
      ∧ (reset_wizard_step env0 user_db0 reset_wizard_init
          (ResetEvent.submitEmail "alice@example.com")).1.reset_email
        = str_strip em := by
  exact (reset_wizard_linear_stages env0 user_db0 reset_wizard_init
    (ResetEvent.submitEmail "alice@example.com")).2.1 rfl (by decide)

/-- Helper: a filter whose predicate is false on every element of the
list yields the empty list. -/
theorem filter_eq_nil_of_false {α : Type} (p : α → Bool) (l : List α)
    (h : ∀ a ∈ l, p a = false) : l.filter p = [] := by
  induction l with
  | nil => rfl
  | cons a t ih =>
    simp only [List.filter_cons, h a (by simp)]
    exact ih (fun b hb => h b (by simp [hb]))

/-- C10: a successful password update deletes every reset token of the
user, so validation with that user's email then fails for any token and
any time (tokens are single-use even inside their expiry window).  The
hypothesis reflects the UNIQUE constraint on users.email: no other user
row carries the same (case-folded) email. -/
theorem password_update_invalidates_tokens (db : UserDB) (uid : Nat)
    (em pw salt hash : String)
    (hpw : (pw == "") = false)
    (hem : ∀ u ∈ db.users, str_lower u.email = str_lower (str_strip em) → u.id = uid) :
    (update_user_password db uid pw salt hash).1 = true
    ∧ (update_user_password db uid pw salt hash).2.tokens.filter
        (fun t => t.user_id == uid) = []
    ∧ ∀ tok now, (validate_password_reset_token
        (update_user_password db uid pw salt hash).2 now em tok).1 = none := by
  have hres : update_user_password db uid pw salt hash =
      (true,
        { users := db.users.map (fun u =>
            if u.id == uid then
              { u with password_hash := hash, password_salt := salt }
            else u),
          tokens := db.tokens.filter (fun t => !(t.user_id == uid)) }) := by
    simp [update_user_password, hpw]
  refine ⟨by rw [hres], ?_, ?_⟩
  · apply filter_eq_nil_of_false
    intro t ht
    rw [hres] at ht
    simpa using (List.mem_filter.mp ht).2
  · intro tok now
    by_cases h0 : (em == "" || tok == "") = true
    · simp [validate_password_reset_token, h0]
    · have hms : ∀ t ∈ (purge_expired_reset_tokens now
          (update_user_password db uid pw salt hash).2).tokens,
          ((purge_expired_reset_tokens now
              (update_user_password db uid pw salt hash).2).users.any (fun u =>
            u.id == t.user_id && str_lower u.email == str_lower (str_strip em))
          && t.token == str_strip tok
          && str_lt now t.expires_at) = false := by
        intro t ht
        have ht2 : t ∈ (update_user_password db uid pw salt hash).2.tokens :=
          (List.mem_filter.mp ht).1
        have htu : (t.user_id == uid) = false := by
          rw [hres] at ht2
          simpa using (List.mem_filter.mp ht2).2
        have hany : ((purge_expired_reset_tokens now
            (update_user_password db uid pw salt hash).2).users.any (fun u =>
              u.id == t.user_id
                && str_lower u.email == str_lower (str_strip em))) = false := by
          rw [Bool.eq_false_iff]
          intro hc
          rcases List.any_eq_true.mp hc with ⟨u', hu', hb⟩
          rw [purge_users_eq, hres] at hu'
          rcases List.mem_map.mp hu' with ⟨u, hu, heq⟩
          rcases (Bool.and_eq_true _ _).mp hb with ⟨hid, hml⟩
          have hid0 : u'.id = u.id := by
            rw [← heq]
            by_cases hcase : (u.id == uid) = true <;> simp [hcase]
          have hem0 : u'.email = u.email := by
            rw [← heq]
            by_cases hcase : (u.id == uid) = true <;> simp [hcase]
          have huid : u.id = uid := by
            apply hem u hu
            rw [← hem0]
            simpa using hml
          have htt : t.user_id = uid := by
            have h1 : u'.id = t.user_id := by simpa using hid
            exact (h1.symm.trans hid0).trans huid
          rw [htt] at htu
          simp at htu
        rw [hany]
        simp
      have hnil := filter_eq_nil_of_false _ _ hms
      simp [validate_password_reset_token, h0, hnil]

/-- C10 witness: after updating Alice's password, her previously issued
and unexpired token "123456" no longer validates. -/
theorem password_update_invalidates_tokens_witness :
    (update_user_password user_db0 1 "newpass" "s1" "h1").1 = true
    ∧ (validate_password_reset_token
        (update_user_password user_db0 1 "newpass" "s1" "h1").2
        "2025-06-01T00:00:00" "alice@example.com" "123456").1 = none := by
  have h := password_update_invalidates_tokens user_db0 1 "alice@example.com"
    "newpass" "s1" "h1" (by decide) (by decide)
  exact ⟨h.1, h.2.2 "123456" "2025-06-01T00:00:00"⟩
